import Mathlib

/-!
A shallow embedding of the toolchain-resolution and command-generation
pipeline of the polly build orchestrator (`src/bin/polly.py`), together
with theorems checking the natural-language specification against it.

The embedding covers the validation and command-composition sequence of
the script (build-tag derivation, directory layout, fatal validation
checks, the `cmake` configure command and the `cmake --build` command).
External collaborators (process execution, logging, environment tuning
via `detail.*` helpers) are outside the model; the filesystem facts the
validations consult (`os.path.exists`, `os.path.isdir`, `os.access`) are
passed in explicitly as an `Env` value.
-/

namespace Polly

/-- Python truthiness of an optional string option (argparse default
`None`): `None` and the empty string are falsy, every other string is
truthy. -/
def optTruthy : Option String → Bool
  | none => false
  | some s => !(s == "")

/-- Python truthiness of the optional integer `--jobs` value: `None` and
`0` are falsy. -/
def intTruthy : Option Int → Bool
  | none => false
  | some n => !(n == 0)

/-- A toolchain descriptor from the registry (`detail.toolchain_table`),
restricted to the fields `src/bin/polly.py` reads.  `vs_version` is the
Visual Studio version marker (`None` for toolchains without one); the
script converts it with `int(...)` where it compares it, so it is held
here as an optional natural number. -/
structure Toolchain where
  name : String
  generator : String
  multiconfig : Bool
  is_make : Bool
  is_nmake : Bool
  is_ninja : Bool
  is_xcode : Bool
  is_msvc : Bool
  vs_version : Option Nat
  xp : Bool
deriving DecidableEq

/-- The command-line options of `src/bin/polly.py` that feed the
validation and command-composition pipeline.  String-valued options
default to `none` (argparse `None`); `store_true` flags are `Bool`. -/
structure Args where
  config : Option String
  home : Option String
  output : Option String
  install : Bool
  strip : Bool
  framework : Bool
  framework_device : Bool
  archive : Option String
  target : Option String
  fwd : Option (List String)
  iossim : Bool
  jobs : Option Int
  verbosity : String
  verbose : Bool
  ios_multiarch : Bool
  ios_combined : Bool
  pack : Option String
deriving DecidableEq

/-- All-defaults argument record (argparse defaults: options `None`,
flags `False`, verbosity `normal`). -/
def defaultArgs : Args :=
  { config := none, home := none, output := none, install := false,
    strip := false, framework := false, framework_device := false,
    archive := none, target := none, fwd := none, iossim := false,
    jobs := none, verbosity := "normal", verbose := false,
    ios_multiarch := false, ios_combined := false, pack := none }

/-- `os.path.join a b` for the relative, non-empty, slash-free second
components this script joins (POSIX separator). -/
def pjoin (a b : String) : String := a ++ "/" ++ b

/-- Build directory tag (`src/bin/polly.py` lines 203-207): if a config
was given (truthy) and the toolchain is not multiconfig, the tag is
`"{toolchain}-{config}"`, otherwise the toolchain name alone. -/
def build_tag (tc : Toolchain) (a : Args) : String :=
  if optTruthy a.config && !tc.multiconfig then
    tc.name ++ "-" ++ a.config.getD ""
  else
    tc.name

/-- The derived artifact directories. -/
structure Paths where
  build_dir : String
  install_dir : String
  framework_dir : String
  archives_dir : String
deriving DecidableEq

/-- Directory layout (`src/bin/polly.py` lines 257, 261, 288, 289):
`{cdir}/_builds/{build_tag}`, `{cdir}/_install/{toolchain}`,
`{cdir}/_framework/{toolchain}` and `{cdir}/_archives`. -/
def plan (cdir : String) (tc : Toolchain) (a : Args) : Paths :=
  { build_dir := pjoin (pjoin cdir "_builds") (build_tag tc a)
    install_dir := pjoin (pjoin cdir "_install") tc.name
    framework_dir := pjoin (pjoin cdir "_framework") tc.name
    archives_dir := pjoin cdir "_archives" }

/-- Modelled from the spec: `detail.target.Target.add` (module
`detail/target.py` is not under `src/`).  The spec describes the target
list as an explicit ordered, deduplicated list; `add` appends `name`
when `condition` is truthy and the name is not already present. -/
def targetAdd (l : List String) (condition : Bool) (name : String) : List String :=
  if condition then (if name ∈ l then l else l ++ [name]) else l

/-- Modelled from the spec: `detail.target.Target.args` (module
`detail/target.py` is not under `src/`): the accumulated targets are
rendered as the target arguments of the `cmake --build` command, in
list order. -/
def targetArgs (l : List String) : List String :=
  (l.map (fun t => ["--target", t])).flatten

/-- `local_install` (`src/bin/polly.py` line 262): any of `--install`,
`--strip`, `--framework`, `--framework-device`, `--archive` activates
local-install mode. -/
def local_install (a : Args) : Bool :=
  a.install || a.strip || a.framework || a.framework_device || optTruthy a.archive

/-- Install target name (`src/bin/polly.py` lines 267-272):
`install/strip` under `--strip`, `install` under plain local install,
empty (unused) otherwise. -/
def install_target_name (a : Args) : String :=
  if a.strip then "install/strip"
  else if local_install a then "install"
  else ""

/-- The build-target list (`src/bin/polly.py` lines 274-277): the
install target is added first (when local-install mode is active), the
explicit `--target` second (when truthy). -/
def targetList (a : Args) : List String :=
  targetAdd (targetAdd [] (local_install a) (install_target_name a))
    (optTruthy a.target) (a.target.getD "")

/-- Source home directory (`src/bin/polly.py` lines 314-316): `--home`
when truthy, else `"."`. -/
def home (a : Args) : String :=
  if optTruthy a.home then a.home.getD "" else "."

/-- Toolchain description file path (`src/bin/polly.py` line 243):
`{polly_root}/{toolchain}.cmake`. -/
def toolchain_path (polly_root : String) (tc : Toolchain) : String :=
  pjoin polly_root (tc.name ++ ".cmake")

/-- The `-DCMAKE_TOOLCHAIN_FILE=` option (`src/bin/polly.py` line 246). -/
def toolchain_option (polly_root : String) (tc : Toolchain) : String :=
  "-DCMAKE_TOOLCHAIN_FILE=" ++ toolchain_path polly_root tc

/-- Effective verbosity (`src/bin/polly.py` lines 297-298): `--verbose`
forces level `full`. -/
def effVerbosity (a : Args) : String :=
  if a.verbose then "full" else a.verbosity

/-- Visual Studio version comparison (`src/bin/polly.py` line 394):
`int(toolchain_entry.vs_version) >= n`.  Registry descriptors with
`is_msvc` always carry a version, so the `none` branch is unreachable
there; it is mapped to `false`. -/
def vsAtLeast (tc : Toolchain) (n : Nat) : Bool :=
  match tc.vs_version with
  | some v => decide (n ≤ v)
  | none => false

/-- The configure command (`src/bin/polly.py` lines 318-356), composed
by the same sequence of conditional appends as the script. -/
def generate_command (polly_root cdir : String) (tc : Toolchain) (a : Args) : List String :=
  ["cmake", "-H" ++ home a, "-B" ++ (plan cdir tc a).build_dir]
  ++ (if optTruthy a.config && !tc.multiconfig then
        ["-DCMAKE_BUILD_TYPE=" ++ a.config.getD ""] else [])
  ++ (if tc.generator ≠ "" then ["-G" ++ tc.generator] else [])
  ++ (if tc.xp then
        ["-T" ++ ("v" ++ toString (tc.vs_version.getD 0) ++ "0_xp")] else [])
  ++ (if toolchain_option polly_root tc ≠ "" then
        [toolchain_option polly_root tc] else [])
  ++ (if effVerbosity a == "full" then
        ["-DCMAKE_VERBOSE_MAKEFILE=ON", "-DPOLLY_STATUS_DEBUG=ON",
         "-DHUNTER_STATUS_DEBUG=ON"] else [])
  ++ (if a.ios_multiarch then
        ["-DCMAKE_XCODE_ATTRIBUTE_ONLY_ACTIVE_ARCH=NO"] else [])
  ++ (if a.ios_combined then ["-DCMAKE_IOS_INSTALL_COMBINED=YES"] else [])
  ++ (if local_install a then
        ["-DCMAKE_INSTALL_PREFIX=" ++ (plan cdir tc a).install_dir] else [])
  ++ (if optTruthy a.pack then ["-DCPACK_GENERATOR=" ++ a.pack.getD ""] else [])
  ++ (match a.fwd with
      | none => []
      | some l => l.map (fun x => "-D" ++ x))

/-- The build command (`src/bin/polly.py` lines 366-395), composed by
the same sequence of conditional appends as the script: base, the
`--config` flag when a config was requested, the target arguments, the
`--` separator, then native-tool arguments (iOS-simulator architecture
flags, parallelism flags chosen by driver). -/
def build_command (cdir : String) (tc : Toolchain) (a : Args) : List String :=
  ["cmake", "--build", (plan cdir tc a).build_dir]
  ++ (if optTruthy a.config then ["--config", a.config.getD ""] else [])
  ++ targetArgs (targetList a)
  ++ ["--"]
  ++ (if a.iossim then ["-arch", "i386", "-sdk", "iphonesimulator"] else [])
  ++ (if intTruthy a.jobs then
        (if tc.is_xcode then ["-jobs", toString (a.jobs.getD 0)]
         else if tc.is_make && !tc.is_nmake then ["-j", toString (a.jobs.getD 0)]
         else if tc.is_msvc && vsAtLeast tc 12 then
           ["/maxcpucount:" ++ toString (a.jobs.getD 0)]
         else [])
      else [])

/-- The fatal validation errors of the modelled pipeline segment
(`sys.exit` calls of `src/bin/polly.py` lines 243-287), in source
order. -/
inductive PollyError where
  | toolchainFileNotFound (path : String)
  | outputDirNotFound (path : String)
  | outputDirNotWritable (path : String)
  | conflictingInstallMode
  | unsupportedStripTarget
  | frameworkRequiresMac
deriving DecidableEq

/-- The ambient facts the validations consult: the polly root, the
current working directory, which paths exist (`os.path.exists`), which
are directories (`os.path.isdir`), which are writable (`os.access`),
and `platform.system()`. -/
structure Env where
  polly_root : String
  cwd : String
  existing_paths : List String
  dirs : List String
  writable : List String
  system : String
deriving DecidableEq

/-- The outcome of a successful pipeline run: the build tag, the
directory layout, and the composed configure and build commands. -/
structure RunResult where
  tag : String
  paths : Paths
  generate : List String
  build : List String
deriving DecidableEq

/-- Validation checks from `src/bin/polly.py` lines 264-287 (after the
build directory root `cdir` is fixed), then command composition:
`--install`/`--strip` conflict (line 264), strip on a non-Makefile
driver (line 280), framework creation off macOS (line 286).  An error
result means the configure and build commands are never composed. -/
def runAfterOutput (env : Env) (tc : Toolchain) (a : Args) (cdir : String) :
    Except PollyError RunResult :=
  if a.install && a.strip then
    .error .conflictingInstallMode
  else if a.strip && !tc.is_make then
    .error .unsupportedStripTarget
  else if (a.framework || a.framework_device) && !(env.system == "Darwin") then
    .error .frameworkRequiresMac
  else
    .ok { tag := build_tag tc a
          paths := plan cdir tc a
          generate := generate_command env.polly_root cdir tc a
          build := build_command cdir tc a }

/-- The modelled pipeline (`src/bin/polly.py` lines 243-395): the
toolchain-file existence check (lines 243-245) runs first, then the
`--output` directory validation (lines 248-255) fixes `cdir`, then the
remaining validations and command composition (`runAfterOutput`). -/
def run (env : Env) (tc : Toolchain) (a : Args) : Except PollyError RunResult :=
  if toolchain_path env.polly_root tc ∈ env.existing_paths then
    if optTruthy a.output then
      if a.output.getD "" ∈ env.dirs then
        if a.output.getD "" ∈ env.writable then
          runAfterOutput env tc a (a.output.getD "")
        else .error (.outputDirNotWritable (a.output.getD ""))
      else .error (.outputDirNotFound (a.output.getD ""))
    else
      runAfterOutput env tc a env.cwd
  else
    .error (.toolchainFileNotFound (toolchain_path env.polly_root tc))

/-- The parallelism flags as the specification describes them: driver
chosen by trait (Xcode-style `-jobs N`, Make-style `-j N`, MSVC-style
`/maxcpucount:N` for toolset versions at least 12), a silent no-op for
every other driver.  Written from the claim wording, for comparison
with the fragment of `build_command` translated from the source. -/
def jobsFlagsSpec (tc : Toolchain) (a : Args) : List String :=
  if intTruthy a.jobs = false then []
  else if tc.is_xcode then ["-jobs", toString (a.jobs.getD 0)]
  else if tc.is_make && !tc.is_nmake then ["-j", toString (a.jobs.getD 0)]
  else if tc.is_msvc && vsAtLeast tc 12 then
    ["/maxcpucount:" ++ toString (a.jobs.getD 0)]
  else []

/-- The build command as the specification describes it: base tokens,
`--config` exactly when a config was requested (regardless of
multiconfig-ness), the target arguments, the fixed `--` separator, the
iOS-simulator architecture flags when `--iossim` was given, then the
parallelism flags.  Written from the claim wording, for comparison with
`build_command`. -/
def buildCommandSpec (cdir : String) (tc : Toolchain) (a : Args) : List String :=
  ["cmake", "--build", (plan cdir tc a).build_dir]
  ++ (if optTruthy a.config then ["--config", a.config.getD ""] else [])
  ++ targetArgs (targetList a)
  ++ ["--"]
  ++ (if a.iossim then ["-arch", "i386", "-sdk", "iphonesimulator"] else [])
  ++ jobsFlagsSpec tc a

/-- The `--jobs` argument converter (`src/bin/polly.py` lines 157-161):
plain `type=int`, i.e. any integer value is accepted unchanged, with no
positivity check.  Modelled on the integer value the conversion
yields. -/
def jobsConverter (v : Int) : Except String Int := .ok v

/-- `PositiveInt` (`src/bin/polly.py` lines 168-173): the converter
used by `--discard`, `--tail` and `--timeout`; rejects values that are
not greater than zero with an `ArgumentTypeError`. -/
def PositiveInt (value : Int) : Except String Int :=
  if value > 0 then .ok value
  else .error ("Should be greater that zero: " ++ toString value)

/-- A single-config Ninja-style descriptor (concrete test fixture). -/
def tcNinja : Toolchain :=
  { name := "ninja", generator := "Ninja", multiconfig := false,
    is_make := false, is_nmake := false, is_ninja := true,
    is_xcode := false, is_msvc := false, vs_version := none, xp := false }

/-- A multiconfig Xcode-style descriptor (concrete test fixture). -/
def tcXcode : Toolchain :=
  { name := "xcode", generator := "Xcode", multiconfig := true,
    is_make := false, is_nmake := false, is_ninja := false,
    is_xcode := true, is_msvc := false, vs_version := none, xp := false }

/-- A single-config Unix-Makefiles descriptor (concrete test fixture). -/
def tcMake : Toolchain :=
  { name := "gcc", generator := "Unix Makefiles", multiconfig := false,
    is_make := true, is_nmake := false, is_ninja := false,
    is_xcode := false, is_msvc := false, vs_version := none, xp := false }

/-- An environment fixture in which the toolchain files of the three
fixture descriptors exist. -/
def envStd : Env :=
  { polly_root := "/polly", cwd := "/work",
    existing_paths := ["/polly/ninja.cmake", "/polly/xcode.cmake", "/polly/gcc.cmake"],
    dirs := [], writable := [], system := "Darwin" }

/-- An environment fixture in which no path exists at all. -/
def envEmpty : Env :=
  { polly_root := "/polly", cwd := "/work", existing_paths := [],
    dirs := [], writable := [], system := "Linux" }

/-! ## Helper lemmas -/

theorem str_ext {s t : String} (h : s.data = t.data) : s = t := by
  cases s; cases t; exact congrArg String.mk h

theorem str_append_cancel_left {s t u : String} (h : s ++ t = s ++ u) : t = u := by
  have hd : s.data ++ t.data = s.data ++ u.data := by
    have h2 := congrArg String.data h
    simpa [String.data_append] using h2
  exact str_ext (List.append_cancel_left hd)

theorem pjoin_right_inj {a b c : String} (h : pjoin a b = pjoin a c) : b = c :=
  str_append_cancel_left h

theorem append_data_get (s t : String) (i : Nat) (h : i < s.data.length) :
    (s ++ t).data[i]? = s.data[i]? := by
  rw [String.data_append]
  exact List.getElem?_append_left h

theorem lit_ne_append (s pre x : String) (i : Nat)
    (hi : i < pre.data.length) (h : s.data[i]? ≠ pre.data[i]?) : s ≠ pre ++ x := by
  intro he
  exact h (by rw [he, append_data_get pre x i hi])

theorem append_ne_append (pre1 x pre2 y : String) (i : Nat)
    (h1 : i < pre1.data.length) (h2 : i < pre2.data.length)
    (h : pre1.data[i]? ≠ pre2.data[i]?) : pre1 ++ x ≠ pre2 ++ y := by
  intro he
  apply h
  rw [← append_data_get pre1 x i h1, he, append_data_get pre2 y i h2]

theorem mem_ite_nil {α : Type} {c : Prop} [Decidable c] (x : α) (l : List α) :
    x ∈ (if c then l else []) ↔ c ∧ x ∈ l := by
  split <;> simp_all

theorem mem_targetAdd {l : List String} {x n : String} {c : Bool} :
    x ∈ targetAdd l c n ↔ x ∈ l ∨ (c = true ∧ x = n) := by
  unfold targetAdd
  split
  · rename_i hc
    split
    · rename_i hm
      constructor
      · exact fun h => Or.inl h
      · rintro (h | ⟨-, rfl⟩)
        · exact h
        · exact hm
    · simp [hc, List.mem_append]
  · rename_i hc
    simp [hc]

/-- If the build-type condition is off and no forwarded definition
spells the same token, the `-DCMAKE_BUILD_TYPE=` token is absent from
the configure command: every other token differs from it at some
character position. -/
theorem bt_notin (polly_root cdir : String) (tc : Toolchain) (a : Args)
    (hc : (optTruthy a.config && !tc.multiconfig) = false)
    (hfwd : ∀ l, a.fwd = some l → ∀ x ∈ l,
      "-D" ++ x ≠ "-DCMAKE_BUILD_TYPE=" ++ a.config.getD "") :
    ("-DCMAKE_BUILD_TYPE=" ++ a.config.getD "") ∉
      generate_command polly_root cdir tc a := by
  intro hmem
  have k0 : ∀ c : String, "-DCMAKE_BUILD_TYPE=" ++ c ≠ "cmake" :=
    fun c => (lit_ne_append "cmake" "-DCMAKE_BUILD_TYPE=" c 0 (by decide) (by decide)).symm
  have kH : ∀ c y : String, "-DCMAKE_BUILD_TYPE=" ++ c ≠ "-H" ++ y :=
    fun c y => append_ne_append "-DCMAKE_BUILD_TYPE=" c "-H" y 1
      (by decide) (by decide) (by decide)
  have kB : ∀ c y : String, "-DCMAKE_BUILD_TYPE=" ++ c ≠ "-B" ++ y :=
    fun c y => append_ne_append "-DCMAKE_BUILD_TYPE=" c "-B" y 1
      (by decide) (by decide) (by decide)
  have kG : ∀ c y : String, "-DCMAKE_BUILD_TYPE=" ++ c ≠ "-G" ++ y :=
    fun c y => append_ne_append "-DCMAKE_BUILD_TYPE=" c "-G" y 1
      (by decide) (by decide) (by decide)
  have kT : ∀ c y : String, "-DCMAKE_BUILD_TYPE=" ++ c ≠ "-T" ++ y :=
    fun c y => append_ne_append "-DCMAKE_BUILD_TYPE=" c "-T" y 1
      (by decide) (by decide) (by decide)
  have kTC : ∀ c y : String,
      "-DCMAKE_BUILD_TYPE=" ++ c ≠ "-DCMAKE_TOOLCHAIN_FILE=" ++ y :=
    fun c y => append_ne_append "-DCMAKE_BUILD_TYPE=" c "-DCMAKE_TOOLCHAIN_FILE=" y 8
      (by decide) (by decide) (by decide)
  have kV1 : ∀ c : String, "-DCMAKE_BUILD_TYPE=" ++ c ≠ "-DCMAKE_VERBOSE_MAKEFILE=ON" :=
    fun c => (lit_ne_append "-DCMAKE_VERBOSE_MAKEFILE=ON" "-DCMAKE_BUILD_TYPE=" c 8
      (by decide) (by decide)).symm
  have kV2 : ∀ c : String, "-DCMAKE_BUILD_TYPE=" ++ c ≠ "-DPOLLY_STATUS_DEBUG=ON" :=
    fun c => (lit_ne_append "-DPOLLY_STATUS_DEBUG=ON" "-DCMAKE_BUILD_TYPE=" c 2
      (by decide) (by decide)).symm
  have kV3 : ∀ c : String, "-DCMAKE_BUILD_TYPE=" ++ c ≠ "-DHUNTER_STATUS_DEBUG=ON" :=
    fun c => (lit_ne_append "-DHUNTER_STATUS_DEBUG=ON" "-DCMAKE_BUILD_TYPE=" c 2
      (by decide) (by decide)).symm
  have kM : ∀ c : String,
      "-DCMAKE_BUILD_TYPE=" ++ c ≠ "-DCMAKE_XCODE_ATTRIBUTE_ONLY_ACTIVE_ARCH=NO" :=
    fun c => (lit_ne_append "-DCMAKE_XCODE_ATTRIBUTE_ONLY_ACTIVE_ARCH=NO"
      "-DCMAKE_BUILD_TYPE=" c 8 (by decide) (by decide)).symm
  have kC : ∀ c : String, "-DCMAKE_BUILD_TYPE=" ++ c ≠ "-DCMAKE_IOS_INSTALL_COMBINED=YES" :=
    fun c => (lit_ne_append "-DCMAKE_IOS_INSTALL_COMBINED=YES" "-DCMAKE_BUILD_TYPE=" c 8
      (by decide) (by decide)).symm
  have kI : ∀ c y : String, "-DCMAKE_BUILD_TYPE=" ++ c ≠ "-DCMAKE_INSTALL_PREFIX=" ++ y :=
    fun c y => append_ne_append "-DCMAKE_BUILD_TYPE=" c "-DCMAKE_INSTALL_PREFIX=" y 8
      (by decide) (by decide) (by decide)
  have kP : ∀ c y : String, "-DCMAKE_BUILD_TYPE=" ++ c ≠ "-DCPACK_GENERATOR=" ++ y :=
    fun c y => append_ne_append "-DCMAKE_BUILD_TYPE=" c "-DCPACK_GENERATOR=" y 3
      (by decide) (by decide) (by decide)
  cases hf : a.fwd with
  | none =>
    simp [generate_command, hf, hc, mem_ite_nil, toolchain_option,
      k0, kH, kB, kG, kT, kTC, kV1, kV2, kV3, kM, kC, kI, kP] at hmem
  | some l =>
    simp [generate_command, hf, hc, mem_ite_nil, toolchain_option,
      k0, kH, kB, kG, kT, kTC, kV1, kV2, kV3, kM, kC, kI, kP] at hmem
    obtain ⟨y, hy, heq⟩ := hmem
    exact hfwd l hf y hy heq

/-- If local-install mode is off and no forwarded definition spells the
same token, the `-DCMAKE_INSTALL_PREFIX=` token is absent from the
configure command. -/
theorem ip_notin (polly_root cdir : String) (tc : Toolchain) (a : Args)
    (hli : local_install a = false)
    (hfwd : ∀ l, a.fwd = some l → ∀ x ∈ l,
      "-D" ++ x ≠ "-DCMAKE_INSTALL_PREFIX=" ++ (plan cdir tc a).install_dir) :
    ("-DCMAKE_INSTALL_PREFIX=" ++ (plan cdir tc a).install_dir) ∉
      generate_command polly_root cdir tc a := by
  intro hmem
  have k0 : ∀ c : String, "-DCMAKE_INSTALL_PREFIX=" ++ c ≠ "cmake" :=
    fun c => (lit_ne_append "cmake" "-DCMAKE_INSTALL_PREFIX=" c 0 (by decide) (by decide)).symm
  have kH : ∀ c y : String, "-DCMAKE_INSTALL_PREFIX=" ++ c ≠ "-H" ++ y :=
    fun c y => append_ne_append "-DCMAKE_INSTALL_PREFIX=" c "-H" y 1
      (by decide) (by decide) (by decide)
  have kB : ∀ c y : String, "-DCMAKE_INSTALL_PREFIX=" ++ c ≠ "-B" ++ y :=
    fun c y => append_ne_append "-DCMAKE_INSTALL_PREFIX=" c "-B" y 1
      (by decide) (by decide) (by decide)
  have kG : ∀ c y : String, "-DCMAKE_INSTALL_PREFIX=" ++ c ≠ "-G" ++ y :=
    fun c y => append_ne_append "-DCMAKE_INSTALL_PREFIX=" c "-G" y 1
      (by decide) (by decide) (by decide)
  have kT : ∀ c y : String, "-DCMAKE_INSTALL_PREFIX=" ++ c ≠ "-T" ++ y :=
    fun c y => append_ne_append "-DCMAKE_INSTALL_PREFIX=" c "-T" y 1
      (by decide) (by decide) (by decide)
  have kBT : ∀ c y : String, "-DCMAKE_INSTALL_PREFIX=" ++ c ≠ "-DCMAKE_BUILD_TYPE=" ++ y :=
    fun c y => append_ne_append "-DCMAKE_INSTALL_PREFIX=" c "-DCMAKE_BUILD_TYPE=" y 8
      (by decide) (by decide) (by decide)
  have kTC : ∀ c y : String,
      "-DCMAKE_INSTALL_PREFIX=" ++ c ≠ "-DCMAKE_TOOLCHAIN_FILE=" ++ y :=
    fun c y => append_ne_append "-DCMAKE_INSTALL_PREFIX=" c "-DCMAKE_TOOLCHAIN_FILE=" y 8
      (by decide) (by decide) (by decide)
  have kV1 : ∀ c : String, "-DCMAKE_INSTALL_PREFIX=" ++ c ≠ "-DCMAKE_VERBOSE_MAKEFILE=ON" :=
    fun c => (lit_ne_append "-DCMAKE_VERBOSE_MAKEFILE=ON" "-DCMAKE_INSTALL_PREFIX=" c 8
      (by decide) (by decide)).symm
  have kV2 : ∀ c : String, "-DCMAKE_INSTALL_PREFIX=" ++ c ≠ "-DPOLLY_STATUS_DEBUG=ON" :=
    fun c => (lit_ne_append "-DPOLLY_STATUS_DEBUG=ON" "-DCMAKE_INSTALL_PREFIX=" c 2
      (by decide) (by decide)).symm
  have kV3 : ∀ c : String, "-DCMAKE_INSTALL_PREFIX=" ++ c ≠ "-DHUNTER_STATUS_DEBUG=ON" :=
    fun c => (lit_ne_append "-DHUNTER_STATUS_DEBUG=ON" "-DCMAKE_INSTALL_PREFIX=" c 2
      (by decide) (by decide)).symm
  have kM : ∀ c : String,
      "-DCMAKE_INSTALL_PREFIX=" ++ c ≠ "-DCMAKE_XCODE_ATTRIBUTE_ONLY_ACTIVE_ARCH=NO" :=
    fun c => (lit_ne_append "-DCMAKE_XCODE_ATTRIBUTE_ONLY_ACTIVE_ARCH=NO"
      "-DCMAKE_INSTALL_PREFIX=" c 8 (by decide) (by decide)).symm
  have kC : ∀ c : String,
      "-DCMAKE_INSTALL_PREFIX=" ++ c ≠ "-DCMAKE_IOS_INSTALL_COMBINED=YES" :=
    fun c => (lit_ne_append "-DCMAKE_IOS_INSTALL_COMBINED=YES" "-DCMAKE_INSTALL_PREFIX=" c 9
      (by decide) (by decide)).symm
  have kP : ∀ c y : String, "-DCMAKE_INSTALL_PREFIX=" ++ c ≠ "-DCPACK_GENERATOR=" ++ y :=
    fun c y => append_ne_append "-DCMAKE_INSTALL_PREFIX=" c "-DCPACK_GENERATOR=" y 3
      (by decide) (by decide) (by decide)
  cases hf : a.fwd with
  | none =>
    simp [generate_command, hf, hli, mem_ite_nil, toolchain_option,
      k0, kH, kB, kG, kT, kBT, kTC, kV1, kV2, kV3, kM, kC, kP] at hmem
  | some l =>
    simp [generate_command, hf, hli, mem_ite_nil, toolchain_option,
      k0, kH, kB, kG, kT, kBT, kTC, kV1, kV2, kV3, kM, kC, kP] at hmem
    obtain ⟨y, hy, heq⟩ := hmem
    exact hfwd l hf y hy heq

/-- When local-install mode is off, the target list holds at most the
explicit `--target` name, so any other name is absent. -/
theorem notin_targetList (a : Args) (x : String) (hli : local_install a = false)
    (hx : a.target ≠ some x) : x ∉ targetList a := by
  intro hm
  unfold targetList at hm
  rw [mem_targetAdd] at hm
  rcases hm with hm | ⟨hct, heq⟩
  · rw [mem_targetAdd] at hm
    rcases hm with hm | ⟨hc, -⟩
    · simp at hm
    · rw [hli] at hc
      exact Bool.false_ne_true hc
  · cases ht : a.target with
    | none =>
      rw [ht] at hct
      simp [optTruthy] at hct
    | some s =>
      rw [ht] at heq
      simp only [Option.getD_some] at heq
      apply hx
      rw [ht, heq]

/-! ## Claim theorems -/

/-- C1: for every invocation, the build directory tag is
`"{toolchainName}-{config}"` when a build configuration is supplied and
the resolved toolchain is not multiconfig, and the toolchain name alone
in every other case. -/
theorem c1_build_tag_derivation (tc : Toolchain) (a : Args) :
    (optTruthy a.config = true → tc.multiconfig = false →
      build_tag tc a = tc.name ++ "-" ++ a.config.getD "") ∧
    (optTruthy a.config = false ∨ tc.multiconfig = true →
      build_tag tc a = tc.name) := by
  constructor
  · intro h1 h2
    simp [build_tag, h1, h2]
  · intro h
    rcases h with h | h <;> simp [build_tag, h]

/-- Witness for C1: a single-config toolchain with a config gets a
hyphenated tag; a multiconfig toolchain with a config keeps the bare
name. -/
theorem c1_build_tag_derivation_witness :
    build_tag tcNinja { defaultArgs with config := some "Release" } = "ninja-Release" ∧
    build_tag tcXcode { defaultArgs with config := some "Debug" } = "xcode" := by
  constructor
  · rw [(c1_build_tag_derivation tcNinja _).1 (by decide) rfl]
    decide
  · rw [(c1_build_tag_derivation tcXcode _).2 (Or.inr rfl)]
    decide

/-- C2: for every invocation, the build command is exactly the ordered
token list the specification describes: `cmake --build {buildDir}`,
`--config {config}` exactly when a config was requested, the target
arguments, the fixed `--` separator, the iOS-simulator architecture
flags when `--iossim` was given, then driver-dependent parallelism
flags (Xcode `-jobs N`, Make-style `-j N`, MSVC `/maxcpucount:N` for
toolset versions at least 12, silent no-op otherwise). -/
theorem c2_build_command_shape (cdir : String) (tc : Toolchain) (a : Args) :
    build_command cdir tc a = buildCommandSpec cdir tc a := by
  unfold build_command buildCommandSpec jobsFlagsSpec
  rcases h : intTruthy a.jobs <;> simp [h]

/-- C4 counterexample: the archives directory is `{cdir}/_archives` for
every toolchain (`src/bin/polly.py` line 289), so two distinct
toolchain names yield the very same archives directory — the claimed
non-collision of all four derived paths fails. -/
theorem c4_counterexample :
    tcNinja.name ≠ tcXcode.name ∧
    (plan "/r" tcNinja defaultArgs).archives_dir =
      (plan "/r" tcXcode defaultArgs).archives_dir := by
  constructor
  · decide
  · rfl

/-- C4 (amended): the build, install and framework directories are
namespaced under the caller-supplied root — install and framework
directories by toolchain name (distinct names never collide), the
build directory by build tag (distinct tags never collide) — while the
archives directory is a single `{root}/_archives` shared by all
toolchains. -/
theorem c4_layout_isolation (cdir : String) (a : Args) (tc1 tc2 : Toolchain) :
    (tc1.name ≠ tc2.name →
      (plan cdir tc1 a).install_dir ≠ (plan cdir tc2 a).install_dir ∧
      (plan cdir tc1 a).framework_dir ≠ (plan cdir tc2 a).framework_dir) ∧
    (build_tag tc1 a ≠ build_tag tc2 a →
      (plan cdir tc1 a).build_dir ≠ (plan cdir tc2 a).build_dir) ∧
    (plan cdir tc1 a).archives_dir = (plan cdir tc2 a).archives_dir := by
  refine ⟨fun h => ⟨fun he => h ?_, fun he => h ?_⟩, fun h he => h ?_, rfl⟩
  · exact pjoin_right_inj he
  · exact pjoin_right_inj he
  · exact pjoin_right_inj he

/-- Witness for C4 (amended): two concrete distinct toolchain names
give distinct install directories. -/
theorem c4_layout_isolation_witness :
    (plan "/r" tcNinja defaultArgs).install_dir ≠
      (plan "/r" tcXcode defaultArgs).install_dir :=
  ((c4_layout_isolation "/r" defaultArgs tcNinja tcXcode).1 (by decide)).1

/-- C5: if the toolchain-description file `{pollyRoot}/{name}.cmake`
does not exist, the pipeline fails fatally with the
toolchain-file-not-found error (and an error result never carries a
configure command, so the configure step is never reached and the flag
is never silently skipped). -/
theorem c5_toolchain_file_required (env : Env) (tc : Toolchain) (a : Args)
    (h : toolchain_path env.polly_root tc ∉ env.existing_paths) :
    run env tc a =
      .error (.toolchainFileNotFound (toolchain_path env.polly_root tc)) := by
  unfold run
  rw [if_neg h]

/-- Witness for C5: with an empty filesystem the run fails with the
toolchain-file-not-found error for the derived path. -/
theorem c5_toolchain_file_required_witness :
    run envEmpty tcNinja defaultArgs =
      .error (.toolchainFileNotFound (toolchain_path envEmpty.polly_root tcNinja)) :=
  c5_toolchain_file_required envEmpty tcNinja defaultArgs (by decide)

/-- C6: requesting both `--install` and `--strip` never yields a
composed command plan, whatever the toolchain and the other options;
and whenever the earlier file/output validations pass, the failure is
precisely the conflicting-install-mode error. -/
theorem c6_install_strip_conflict (env : Env) (tc : Toolchain) (a : Args)
    (hin : a.install = true) (hstrip : a.strip = true) :
    (∀ r : RunResult, run env tc a ≠ .ok r) ∧
    (toolchain_path env.polly_root tc ∈ env.existing_paths →
      (optTruthy a.output = true →
        a.output.getD "" ∈ env.dirs ∧ a.output.getD "" ∈ env.writable) →
      run env tc a = .error .conflictingInstallMode) := by
  have hafter : ∀ cdir, runAfterOutput env tc a cdir = .error .conflictingInstallMode := by
    intro cdir
    unfold runAfterOutput
    rw [if_pos (by simp [hin, hstrip])]
  constructor
  · intro r
    unfold run
    split
    · split
      · split
        · split
          · rw [hafter]
            simp
          · simp
        · simp
      · rw [hafter]
        simp
    · simp
  · intro hfile hout
    unfold run
    rw [if_pos hfile]
    by_cases ho : optTruthy a.output = true
    · obtain ⟨h1, h2⟩ := hout ho
      rw [if_pos ho, if_pos h1, if_pos h2, hafter]
    · rw [if_neg ho, hafter]

/-- Witness for C6: a concrete run with both flags fails with the
conflicting-install-mode error. -/
theorem c6_install_strip_conflict_witness :
    run envStd tcNinja { defaultArgs with install := true, strip := true } =
      .error .conflictingInstallMode :=
  (c6_install_strip_conflict envStd tcNinja _ rfl rfl).2 (by decide) (by decide)

/-- C7: with `--strip` requested (and no conflicting `--install`), a
resolved toolchain that is not a Makefile-style driver makes the
pipeline fail fatally with the unsupported-strip-target error once the
earlier validations pass; and under `--strip` the selected install
target is `install/strip` rather than plain `install`. -/
theorem c7_strip_requires_make :
    (∀ (env : Env) (tc : Toolchain) (a : Args),
      a.strip = true → a.install = false → tc.is_make = false →
      toolchain_path env.polly_root tc ∈ env.existing_paths →
      (optTruthy a.output = true →
        a.output.getD "" ∈ env.dirs ∧ a.output.getD "" ∈ env.writable) →
      run env tc a = .error .unsupportedStripTarget) ∧
    (∀ a : Args, a.strip = true → install_target_name a = "install/strip") := by
  constructor
  · intro env tc a hstrip hin hmake hfile hout
    have hafter : ∀ cdir, runAfterOutput env tc a cdir = .error .unsupportedStripTarget := by
      intro cdir
      unfold runAfterOutput
      rw [if_neg (by simp [hin]), if_pos (by simp [hstrip, hmake])]
    unfold run
    rw [if_pos hfile]
    by_cases ho : optTruthy a.output = true
    · obtain ⟨h1, h2⟩ := hout ho
      rw [if_pos ho, if_pos h1, if_pos h2, hafter]
    · rw [if_neg ho, hafter]
  · intro a h
    simp [install_target_name, h]

/-- Witness for C7: `--strip` on the (non-Makefile) Ninja descriptor
fails with the unsupported-strip-target error. -/
theorem c7_strip_requires_make_witness :
    run envStd tcNinja { defaultArgs with strip := true } =
      .error .unsupportedStripTarget :=
  c7_strip_requires_make.1 envStd tcNinja _ rfl rfl rfl (by decide) (by decide)

/-- C9: the user-forwarded `--fwd` definitions are the final tokens of
the configure command, each individually prefixed with `-D`, in exactly
the order supplied; mapping over the supplied list preserves order and
duplicates, so duplicates pass through verbatim. -/
theorem c9_fwd_appended_last (polly_root cdir : String) (tc : Toolchain) (a : Args)
    (l : List String) (h : a.fwd = some l) :
    ∃ pre : List String,
      generate_command polly_root cdir tc a = pre ++ l.map (fun x => "-D" ++ x) := by
  refine ⟨["cmake", "-H" ++ home a, "-B" ++ (plan cdir tc a).build_dir]
      ++ (if optTruthy a.config && !tc.multiconfig then
            ["-DCMAKE_BUILD_TYPE=" ++ a.config.getD ""] else [])
      ++ (if tc.generator ≠ "" then ["-G" ++ tc.generator] else [])
      ++ (if tc.xp then
            ["-T" ++ ("v" ++ toString (tc.vs_version.getD 0) ++ "0_xp")] else [])
      ++ (if toolchain_option polly_root tc ≠ "" then
            [toolchain_option polly_root tc] else [])
      ++ (if effVerbosity a == "full" then
            ["-DCMAKE_VERBOSE_MAKEFILE=ON", "-DPOLLY_STATUS_DEBUG=ON",
             "-DHUNTER_STATUS_DEBUG=ON"] else [])
      ++ (if a.ios_multiarch then
            ["-DCMAKE_XCODE_ATTRIBUTE_ONLY_ACTIVE_ARCH=NO"] else [])
      ++ (if a.ios_combined then ["-DCMAKE_IOS_INSTALL_COMBINED=YES"] else [])
      ++ (if local_install a then
            ["-DCMAKE_INSTALL_PREFIX=" ++ (plan cdir tc a).install_dir] else [])
      ++ (if optTruthy a.pack then ["-DCPACK_GENERATOR=" ++ a.pack.getD ""] else []), ?_⟩
  unfold generate_command
  rw [h]

/-- Witness for C9: a concrete forwarded list with a duplicate key ends
the configure command verbatim and in order. -/
theorem c9_fwd_appended_last_witness :
    ∃ pre : List String,
      generate_command "/polly" "/work" tcNinja
          { defaultArgs with fwd := some ["A=1", "A=2", "A=1"] } =
        pre ++ (["A=1", "A=2", "A=1"].map (fun x => "-D" ++ x)) :=
  c9_fwd_appended_last "/polly" "/work" tcNinja _ ["A=1", "A=2", "A=1"] rfl

/-- C8 counterexample: the `--jobs` converter is plain `int`
(`src/bin/polly.py` line 159), so the non-positive value `-2` is
accepted by argument parsing rather than rejected. -/
theorem c8_counterexample :
    jobsConverter (-2) = Except.ok (-2) ∧ ¬((-2 : Int) > 0) := by
  exact ⟨rfl, by decide⟩

/-- C8 (amended): `--jobs` accepts any integer — its converter performs
no positivity check; the `PositiveInt` converter, which rejects values
not greater than zero, is applied to `--discard`, `--tail` and
`--timeout` instead. -/
theorem c8_jobs_no_validation (v : Int) :
    jobsConverter v = Except.ok v ∧
    (v ≤ 0 →
      PositiveInt v = Except.error ("Should be greater that zero: " ++ toString v)) := by
  refine ⟨rfl, fun h => ?_⟩
  unfold PositiveInt
  rw [if_neg (by omega)]

/-- Witness for C8 (amended): `PositiveInt` rejects `-2`. -/
theorem c8_jobs_no_validation_witness :
    PositiveInt (-2) = Except.error ("Should be greater that zero: " ++ toString (-2 : Int)) :=
  (c8_jobs_no_validation (-2)).2 (by decide)

/-- C3: the configure command always contains the source-directory flag
and the build-directory flag, and it contains the build-type definition
token exactly when the toolchain is single-config and an explicit
config was requested (provided no `--fwd` definition spells that very
token itself, which the raw passthrough would forward verbatim). -/
theorem c3_configure_flags (polly_root cdir : String) (tc : Toolchain) (a : Args)
    (hfwd : ∀ l, a.fwd = some l → ∀ x ∈ l,
      "-D" ++ x ≠ "-DCMAKE_BUILD_TYPE=" ++ a.config.getD "") :
    ("-H" ++ home a) ∈ generate_command polly_root cdir tc a ∧
    ("-B" ++ (plan cdir tc a).build_dir) ∈ generate_command polly_root cdir tc a ∧
    (("-DCMAKE_BUILD_TYPE=" ++ a.config.getD "") ∈ generate_command polly_root cdir tc a ↔
      optTruthy a.config = true ∧ tc.multiconfig = false) := by
  refine ⟨?_, ?_, ?_⟩
  · simp [generate_command]
  · simp [generate_command]
  · constructor
    · intro hmem
      by_cases h1 : optTruthy a.config = true
      · by_cases h2 : tc.multiconfig = false
        · exact ⟨h1, h2⟩
        · refine absurd hmem (bt_notin polly_root cdir tc a ?_ hfwd)
          simp only [Bool.not_eq_false] at h2
          simp [h2]
      · refine absurd hmem (bt_notin polly_root cdir tc a ?_ hfwd)
        simp only [Bool.not_eq_true] at h1
        simp [h1]
    · rintro ⟨h1, h2⟩
      simp [generate_command, h1, h2]

/-- Witness for C3: a single-config toolchain with `--config Release`
and no forwarded definitions gets the build-type token. -/
theorem c3_configure_flags_witness :
    ("-DCMAKE_BUILD_TYPE=" ++ (some "Release").getD "") ∈
      generate_command "/polly" "/work" tcNinja
        { defaultArgs with config := some "Release" } :=
  (c3_configure_flags "/polly" "/work" tcNinja
    { defaultArgs with config := some "Release" }
    (by simp [defaultArgs])).2.2.mpr ⟨by decide, rfl⟩

/-- C10: whenever one of `--install`, `--strip`, `--framework`,
`--framework-device`, `--archive` is requested, local-install mode adds
the install target (`install`, or `install/strip` under `--strip`) to
the build-target list and appends the `CMAKE_INSTALL_PREFIX` definition
pointing at the per-toolchain install directory to the configure
command; when none is given, neither appears (provided no `--fwd`
definition and no explicit `--target` spells those very tokens). -/
theorem c10_local_install (polly_root cdir : String) (tc : Toolchain) (a : Args) :
    (local_install a = true →
      install_target_name a = (if a.strip then "install/strip" else "install") ∧
      install_target_name a ∈ targetList a ∧
      ("-DCMAKE_INSTALL_PREFIX=" ++ (plan cdir tc a).install_dir) ∈
        generate_command polly_root cdir tc a) ∧
    (local_install a = false →
      (∀ l, a.fwd = some l → ∀ x ∈ l,
        "-D" ++ x ≠ "-DCMAKE_INSTALL_PREFIX=" ++ (plan cdir tc a).install_dir) →
      a.target ≠ some "install" → a.target ≠ some "install/strip" →
      "install" ∉ targetList a ∧ "install/strip" ∉ targetList a ∧
      ("-DCMAKE_INSTALL_PREFIX=" ++ (plan cdir tc a).install_dir) ∉
        generate_command polly_root cdir tc a) := by
  constructor
  · intro h
    refine ⟨?_, ?_, ?_⟩
    · cases hs : a.strip <;> simp [install_target_name, hs, h]
    · have hin : install_target_name a ∈
          targetAdd [] (local_install a) (install_target_name a) :=
        mem_targetAdd.mpr (Or.inr ⟨h, rfl⟩)
      exact mem_targetAdd.mpr (Or.inl hin)
    · simp [generate_command, h]
  · intro h hfwd h1 h2
    exact ⟨notin_targetList a "install" h h1, notin_targetList a "install/strip" h h2,
      ip_notin polly_root cdir tc a h hfwd⟩

/-- Witness for C10: with `--install` on a concrete toolchain, the
install-prefix definition is part of the configure command. -/
theorem c10_local_install_witness :
    ("-DCMAKE_INSTALL_PREFIX=" ++
        (plan "/work" tcNinja { defaultArgs with install := true }).install_dir) ∈
      generate_command "/polly" "/work" tcNinja { defaultArgs with install := true } :=
  ((c10_local_install "/polly" "/work" tcNinja
    { defaultArgs with install := true }).1 (by decide)).2.2

end Polly
